import Mathlib

/-!
Verification of the invoice lifecycle subsystem of the build-easy-quickstart
repository: shallow embedding of the database trigger `set_invoice_number`,
the UI handlers `processSignature`, `handleSignInvoice` and `handlePayNow`
from `InvoiceList.tsx`, the `ensureHttps` helper and `check-status` action of
the `stripe-connect-onboarding` edge function, the `send-invoice-email` edge
function handler, and the `RoleGuard` component.  The absent
`stripe-create-invoice` edge function is modelled from the specification.
-/

set_option maxRecDepth 2000

/-! ## Numbering Authority: the `set_invoice_number` trigger (SQL migration) -/

/-- The fields of an invoice row touched by the `set_invoice_number` trigger
(`NEW` in the plpgsql source); `none` models SQL `NULL`. -/
structure InvoiceRow where
  legal_invoice_number : Option String
  invoice_number : Option String
  issued_at : Option String
  tax_point : Option String
deriving DecidableEq, Repr

/-- Embedding of the plpgsql trigger function `public.set_invoice_number`:
`nextLegal` is the value `generate_legal_invoice_number()` would return and
`now` the value of `NOW()` for this invocation.  Each field is assigned only
when it is `NULL`; the `invoice_number` copy reads the possibly-just-assigned
`legal_invoice_number`, exactly as the trigger mutates `NEW` in order. -/
def set_invoice_number (nextLegal : String) (now : String) (r : InvoiceRow) : InvoiceRow :=
  let r1 := if r.legal_invoice_number = none then
    { r with legal_invoice_number := some nextLegal } else r
  let r2 := if r1.invoice_number = none then
    { r1 with invoice_number := r1.legal_invoice_number } else r1
  let r3 := if r2.issued_at = none then { r2 with issued_at := some now } else r2
  if r3.tax_point = none then { r3 with tax_point := some now } else r3

/-! ## `ensureHttps` from the `stripe-connect-onboarding` edge function -/

/-- JavaScript truthiness of an optional string: `undefined`/`null` and the
empty string are falsy. -/
def strTruthy : Option String → Bool
  | none => false
  | some s => s ≠ ""

/-- JavaScript `!s.trim()`: the string trims to the empty string exactly when
every character is whitespace; modelled structurally over the character
list so that concrete instances reduce. -/
def isBlank (s : String) : Bool := s.data.all Char.isWhitespace

/-- The `url.startsWith('https://')` test, modelled structurally over the
character lists so that concrete instances reduce. -/
def strStartsWith (s pre : String) : Bool := pre.data.isPrefixOf s.data

/-- Case-insensitive string comparison (lower-casing both sides), the check
the specification prescribes for the vendor signature name. -/
def eqCaseInsensitive (a b : String) : Bool :=
  a.data.map Char.toLower == b.data.map Char.toLower

/-- Embedding of `ensureHttps` from `stripe-connect-onboarding/index.ts`.
`frontendUrl` is `Deno.env.get('FRONTEND_URL') || ''`; `url` is the request
field (absent modelled as `none`).  Mirrors the source: a truthy URL starting
with `https://` is returned unchanged; otherwise, if `frontendUrl` is
non-empty, the result is the fallback base concatenated with `fallbackPath`;
otherwise `url || fallbackPath` is returned. -/
def ensureHttps (frontendUrl : String) (url : Option String) (fallbackPath : String) : String :=
  if strTruthy url && strStartsWith (url.getD "") "https://" then url.getD ""
  else if frontendUrl ≠ "" then frontendUrl ++ fallbackPath
  else if strTruthy url then url.getD "" else fallbackPath

/-! ## Payout account status (`check-status` action; `vendor_profiles` columns) -/

/-- The processor-side onboarding status of a vendor payout account, as
retrieved by the `check-status` action (`charges_enabled`, `payouts_enabled`
on the Stripe account, persisted to `stripe_charges_enabled` /
`stripe_payouts_enabled` on `vendor_profiles`). -/
structure PayoutAccount where
  chargesEnabled : Bool
  payoutsEnabled : Bool
deriving DecidableEq, Repr

/-! ## Invoice store row as read and written by the UI handlers -/

/-- The stored invoice fields the signature and payment handlers read and
write (`invoices` table columns per `InvoiceList.tsx` and the migrations). -/
structure StoredInvoice where
  status : String
  vendor_signed_at : Option String
  vendor_signature_url : Option String
  client_signed_at : Option String
  client_signature_url : Option String
  stripe_hosted_invoice_url : Option String
  stripe_pdf_url : Option String
deriving DecidableEq, Repr

/-- Payment Bridge errors: precondition (processor onboarding incomplete)
versus upstream processor failure. -/
inductive PBError
  | setupRequired
  | upstream
deriving DecidableEq, Repr

/-- Modelled from the spec: the `stripe-create-invoice` edge function invoked
by `processSignature` is absent from the repository; per §4.3 of the spec
(`createOrGetHostedSession`), if the invoice already has a
`stripe_hosted_invoice_url` it is returned unchanged (idempotent read);
otherwise the vendor's payout account must have `chargesEnabled` and
`payoutsEnabled` true, failing with a distinct setup-required error if not;
on success the PDF and hosted-session URLs are persisted onto the invoice
record, and per §4.2 this design variant transitions the invoice straight to
`sent`.  `upstreamOk` models whether the processor call itself succeeds. -/
def createOrGetHostedSession (acct : PayoutAccount) (upstreamOk : Bool)
    (sessionUrl pdfUrl : String) (inv : StoredInvoice) : Except PBError StoredInvoice :=
  match inv.stripe_hosted_invoice_url with
  | some _ => .ok inv
  | none =>
    if !(acct.chargesEnabled && acct.payoutsEnabled) then .error .setupRequired
    else if !upstreamOk then .error .upstream
    else .ok { inv with
      stripe_hosted_invoice_url := some sessionUrl,
      stripe_pdf_url := some pdfUrl,
      status := "sent" }

/-! ## `processSignature` and `handleSignInvoice` from `InvoiceList.tsx` -/

/-- The role prop of `InvoiceList`. -/
inductive Role
  | vendor
  | client
deriving DecidableEq, Repr

/-- The user-visible outcome of `processSignature`: which toast the handler
shows (validation error, generic error toast from the catch block, the
Stripe-setup-required toast, or the success toast with its description). -/
inductive SignResult
  | validationError (msg : String)
  | updateFailed
  | setupRequired (msg : String)
  | paymentFailed
  | success (msg : String)
deriving DecidableEq, Repr

/-- The post-state of a `processSignature` call: the invoice row after the
handler, how many times `send-invoice-email` was invoked, how many emails the
invocation actually delivered, and the toast shown. -/
structure SignOutcome where
  inv : StoredInvoice
  emailsInvoked : Nat
  emailsDelivered : Nat
  result : SignResult
deriving DecidableEq, Repr

/-- Embedding of `processSignature` from `InvoiceList.tsx`.  `selectedSome`
models whether `selectedInvoice` is set, `inv` the stored row for it, `now`
the `new Date().toISOString()` value, `updateOk` whether the row update
succeeds, `stripeConnectId` the vendor profile's `stripe_connect_id`,
`acct`/`upstreamOk`/`sessionUrl`/`pdfUrl` the inputs of the modelled
`stripe-create-invoice` invocation, and `emailOk` whether the awaited
`send-invoice-email` invocation succeeds (its result is discarded by the
source, which shows the success toast regardless). -/
def processSignature (role : Role) (selectedSome : Bool) (inv : StoredInvoice)
    (signature : String) (now : String) (updateOk : Bool)
    (stripeConnectId : Option String) (acct : PayoutAccount) (upstreamOk : Bool)
    (sessionUrl pdfUrl : String) (emailOk : Bool) : SignOutcome :=
  if !selectedSome || isBlank signature then
    ⟨inv, 0, 0, .validationError "Please enter your signature"⟩
  else
    match role with
    | .vendor =>
      if !updateOk then ⟨inv, 0, 0, .updateFailed⟩
      else
        let inv1 := { inv with
          vendor_signed_at := some now,
          vendor_signature_url := some signature }
        match stripeConnectId with
        | none =>
          ⟨inv1, 0, 0, .setupRequired "Please complete Stripe Connect onboarding first"⟩
        | some _ =>
          match createOrGetHostedSession acct upstreamOk sessionUrl pdfUrl inv1 with
          | .error _ => ⟨inv1, 0, 0, .paymentFailed⟩
          | .ok inv2 =>
            ⟨inv2, 1, if emailOk then 1 else 0, .success "Invoice signed and sent to client"⟩
    | .client =>
      if !updateOk then ⟨inv, 0, 0, .updateFailed⟩
      else
        ⟨{ inv with
            client_signed_at := some now,
            client_signature_url := some signature },
          0, 0, .success "Invoice acknowledged"⟩

/-- Embedding of `handleSignInvoice` from `InvoiceList.tsx`: the initial
value of the signature input.  For the vendor role it is pre-filled with the
on-file business name (or empty when absent); the input remains freely
editable before `processSignature` runs. -/
def handleSignInvoice (role : Role) (businessName : Option String) : String :=
  match role with
  | .vendor => businessName.getD ""
  | .client => ""

/-! ## `handlePayNow` from `InvoiceList.tsx` -/

/-- Outcome of `handlePayNow`: either a payment page was opened at a URL, or
an error toast was shown; `lookups` counts the store lookups performed. -/
inductive PayNowOutcome
  | opened (url : String) (lookups : Nat)
  | errorToast (msg : String) (lookups : Nat)
deriving DecidableEq, Repr

/-- The number of store lookups a `handlePayNow` outcome performed. -/
def PayNowOutcome.lookups : PayNowOutcome → Nat
  | .opened _ n => n
  | .errorToast _ n => n

/-- Embedding of `handlePayNow` from `InvoiceList.tsx`.  `cached` is the
invoice prop's `stripe_hosted_invoice_url`; `lookup` the result of the single
fresh `select('stripe_hosted_invoice_url')` against the store (`.error` a
thrown query error, `.ok none` a row whose URL is still null).  Every thrown
error is handled by the surrounding catch, which shows a generic error
toast. -/
def handlePayNow (cached : Option String) (lookup : Except String (Option String)) :
    PayNowOutcome :=
  match cached with
  | some u => .opened u 0
  | none =>
    match lookup with
    | .error _ => .errorToast "Failed to open payment page. Please try again." 1
    | .ok (some u) => .opened u 1
    | .ok none => .errorToast "Payment URL not available. Please contact the vendor." 1

/-! ## `send-invoice-email` edge function -/

/-- Zero-padded two-digit rendering of the fractional (cent) part. -/
def pad2 (n : Nat) : String :=
  if n < 10 then "0" ++ toString n else toString n

/-- Comma insertion over a least-significant-first digit list: a comma is
placed after every third digit while further digits remain. -/
def groupRev : List Char → Nat → List Char
  | [], _ => []
  | [c], _ => [c]
  | c :: rest, i =>
    if (i + 1) % 3 = 0 then c :: ',' :: groupRev rest (i + 1)
    else c :: groupRev rest (i + 1)

/-- Comma-grouped decimal rendering of a natural number, as
`toLocaleString` with the `en-US` locale groups the integer part. -/
def group3 (n : Nat) : String :=
  ⟨(groupRev (Nat.toDigits 10 n).reverse 0).reverse⟩

/-- Embedding of
`Number(x).toLocaleString('en-US', ...)` with two forced fraction digits, for
a non-negative amount represented in cents: the monetary figure as it appears
in the rendered email. -/
def formatEuroCents (cents : Nat) : String :=
  group3 (cents / 100) ++ "." ++ pad2 (cents % 100)

/-- The invoice columns the `send-invoice-email` handler selects; amounts are
in cents. -/
structure InvoiceEmailRow where
  invoice_number : String
  legal_invoice_number : Option String
  subtotal_cents : Nat
  vat_cents : Nat
  total_cents : Nat
  stripe_pdf_url : Option String
deriving DecidableEq, Repr

/-- JavaScript `invoice.legal_invoice_number || invoice.invoice_number`. -/
def displayInvoiceNumber (row : InvoiceEmailRow) : String :=
  if strTruthy row.legal_invoice_number then row.legal_invoice_number.getD ""
  else row.invoice_number

/-- JavaScript `vendorProfile?.business_name || 'Your Vendor'`. -/
def vendorDisplayName (businessName : Option String) : String :=
  if strTruthy businessName then businessName.getD "" else "Your Vendor"

/-- An email message handed to the provider: recipient, subject, html body. -/
structure EmailMsg where
  toAddr : String
  subject : String
  html : String
deriving DecidableEq, Repr

/-- The HTTP response of the `send-invoice-email` handler: `ok` is the 200
`{success:true}` response, `err` the 500 response carrying the error
message. -/
inductive EmailResp
  | ok
  | err (msg : String)
deriving DecidableEq, Repr

/-- Literal html of the template up to the first `vendorName` splice. -/
def emailHtmlP1 : String :=
  "\n        <!DOCTYPE html>\n        <html>\n          <head>\n            <style>\n              body \x7b font-family: Arial, sans-serif; line-height: 1.6; color: #333; \x7d\n              .container \x7b max-width: 600px; margin: 0 auto; padding: 20px; \x7d\n              .header \x7b background: linear-gradient(135deg, #667eea 0%, #764ba2 100%); color: white; padding: 30px; text-align: center; border-radius: 8px 8px 0 0; \x7d\n              .content \x7b background: #f9fafb; padding: 30px; border-radius: 0 0 8px 8px; \x7d\n              .invoice-details \x7b background: white; padding: 20px; border-radius: 8px; margin: 20px 0; border-left: 4px solid #667eea; \x7d\n              .amount \x7b font-size: 32px; font-weight: bold; color: #667eea; margin: 10px 0; \x7d\n              .button \x7b display: inline-block; background: #667eea; color: white; padding: 12px 30px; text-decoration: none; border-radius: 6px; margin: 20px 0; \x7d\n              .footer \x7b text-align: center; padding: 20px; color: #6b7280; font-size: 14px; \x7d\n            </style>\n          </head>\n          <body>\n            <div class=\"container\">\n              <div class=\"header\">\n                <h1>New Invoice Received</h1>\n              </div>\n              <div class=\"content\">\n                <p>Hello,</p>\n                <p>You have received a new invoice from <strong>"

/-- Literal html between the first `vendorName` splice and the invoice
number splice. -/
def emailHtmlP2 : String :=
  "</strong>.</p>\n                \n                <div class=\"invoice-details\">\n                  <p><strong>Invoice Number:</strong> "

/-- Literal html between the invoice number and the subtotal figure. -/
def emailHtmlP3 : String :=
  "</p>\n                  <p><strong>Subtotal:</strong> €"

/-- Literal html between the subtotal and the VAT figure. -/
def emailHtmlP4 : String :=
  "</p>\n                  <p><strong>VAT:</strong> €"

/-- Literal html between the VAT and the total figure. -/
def emailHtmlP5 : String :=
  "</p>\n                  <div class=\"amount\">€"

/-- Literal html between the total figure and the conditional PDF block. -/
def emailHtmlP6 : String :=
  "</div>\n                </div>\n\n                "

/-- Literal html of the PDF block before the `stripe_pdf_url` splice. -/
def emailHtmlPdfA : String :=
  "\n                  <p>You can view and download your invoice using the button below:</p>\n                  <a href=\""

/-- Literal html of the PDF block after the `stripe_pdf_url` splice. -/
def emailHtmlPdfB : String :=
  "\" class=\"button\">View Invoice PDF</a>\n                "

/-- Literal html between the PDF block and the second `vendorName` splice. -/
def emailHtmlP7 : String :=
  "\n\n                <p>Please log in to your BuildEasy dashboard to view the full invoice details and manage payment.</p>\n                \n                <p>If you have any questions about this invoice, please contact "

/-- Literal html after the second `vendorName` splice to the end of the
template. -/
def emailHtmlP8 : String :=
  " directly.</p>\n              </div>\n              <div class=\"footer\">\n                <p>This is an automated email from BuildEasy.</p>\n                <p>© 2025 BuildEasy. All rights reserved.</p>\n              </div>\n            </div>\n          </body>\n        </html>\n      "

/-- Embedding of the html template literal of `send-invoice-email`: the
literal chunks with the `vendorName`, `invoiceNumber`, three formatted
monetary figures and optional PDF URL spliced in, in source order. -/
def renderInvoiceEmailHtml (vendorName invoiceNumber subS vatS totS : String)
    (pdfUrl : Option String) : String :=
  emailHtmlP1 ++ vendorName ++ emailHtmlP2 ++ invoiceNumber ++ emailHtmlP3 ++ subS ++
    emailHtmlP4 ++ vatS ++ emailHtmlP5 ++ totS ++ emailHtmlP6 ++
    (if strTruthy pdfUrl then emailHtmlPdfA ++ pdfUrl.getD "" ++ emailHtmlPdfB else "") ++
    emailHtmlP7 ++ vendorName ++ emailHtmlP8

/-- Embedding of the `send-invoice-email` serve handler.  `invoiceLookup` is
the result of the invoice select (`.error` models a thrown `invoiceError`),
`clientEmail` the resolved `clientUser?.email` (absent user or address is
`none`; the empty string is also falsy), `businessName` the vendor profile's
`business_name`, and `sendResult` the provider's outcome (`some msg` models a
thrown `emailError`).  Returns the HTTP response together with the list of
send attempts handed to the provider. -/
def sendInvoiceEmailHandler (invoiceLookup : Except String InvoiceEmailRow)
    (clientEmail : Option String) (businessName : Option String)
    (sendResult : Option String) : EmailResp × List EmailMsg :=
  match invoiceLookup with
  | .error e => (.err e, [])
  | .ok row =>
    if !strTruthy clientEmail then (.err "Client email not found", [])
    else
      let vendorName := vendorDisplayName businessName
      let invoiceNumber := displayInvoiceNumber row
      let msg : EmailMsg :=
        ⟨clientEmail.getD "",
         "New Invoice " ++ invoiceNumber ++ " from " ++ vendorName,
         renderInvoiceEmailHtml vendorName invoiceNumber
           (formatEuroCents row.subtotal_cents) (formatEuroCents row.vat_cents)
           (formatEuroCents row.total_cents) row.stripe_pdf_url⟩
      match sendResult with
      | some e => (.err e, [msg])
      | none => (.ok, [msg])

/-! ## `RoleGuard` component -/

/-- Result of a `supabase.rpc('has_role', ...)` call: a boolean answer or an
rpc error. -/
inductive RpcResult
  | ok (b : Bool)
  | err
deriving DecidableEq, Repr

/-- The loop over `allowedUserTypes` in `checkUserRole`: the first role whose
`has_role` rpc answers `true`; rpc errors and `false` answers continue the
loop. -/
def firstRoleMatch (roleCheck : String → RpcResult) : List String → Option String
  | [] => none
  | r :: rest =>
    match roleCheck r with
    | .ok true => some r
    | _ => firstRoleMatch roleCheck rest

/-- Embedding of `checkUserRole` from `RoleGuard.tsx`: the admin `has_role`
rpc is consulted first and, when it answers `true`, the user type is `admin`
and the per-role loop never runs; otherwise (including an admin rpc error)
the allowed types are checked in order. -/
def checkUserRole (adminCheck : RpcResult) (roleCheck : String → RpcResult)
    (allowed : List String) : Option String :=
  match adminCheck with
  | .ok true => some "admin"
  | _ => firstRoleMatch roleCheck allowed

/-- The render decision of `RoleGuard`: redirect to `/auth`, render the
protected children, or redirect to the landing page. -/
inductive GuardDecision
  | redirectAuth
  | grant
  | redirectHome
deriving DecidableEq, Repr

/-- Embedding of the `RoleGuard` render logic (after loading completes): no
user redirects to `/auth`; a user whose computed type is `admin` is granted
access before the `allowedUserTypes` membership test; a non-admin type not in
the allowed list redirects home; otherwise (including a null type) the
children are rendered. -/
def roleGuard (userPresent : Bool) (adminCheck : RpcResult)
    (roleCheck : String → RpcResult) (allowed : List String) : GuardDecision :=
  if ¬ userPresent then .redirectAuth
  else
    match checkUserRole adminCheck roleCheck allowed with
    | some t =>
      if t = "admin" then .grant
      else if allowed.contains t then .grant
      else .redirectHome
    | none => .grant

/-! ## Helper lemmas -/

/-- Associativity of string concatenation, used to exhibit substrings of the
rendered email body. -/
theorem strAppendAssoc (a b c : String) : a ++ b ++ c = a ++ (b ++ c) := by
  simp [String.congr_append, List.append_assoc]

/-- A successful modelled `stripe-create-invoice` call only touches the
payment-linkage fields and the status: the vendor signature fields pass
through unchanged. -/
theorem createOrGetHostedSession_ok_fields (acct : PayoutAccount) (u : Bool)
    (sUrl pUrl : String) (inv inv2 : StoredInvoice)
    (h : createOrGetHostedSession acct u sUrl pUrl inv = .ok inv2) :
    inv2.vendor_signed_at = inv.vendor_signed_at ∧
    inv2.vendor_signature_url = inv.vendor_signature_url := by
  unfold createOrGetHostedSession at h
  split at h
  · cases h
    exact ⟨rfl, rfl⟩
  · split_ifs at h with h1 h2
    injection h with h
    subst h
    exact ⟨rfl, rfl⟩

/-- C2: the `set_invoice_number` trigger assigns the next legal number only
when `legal_invoice_number` is null, copies the (possibly fresh) legal number
into `invoice_number` only when that is null, stamps `issued_at` and
`tax_point` with the current time only when each is null, never overwrites a
non-null field, and re-running the trigger on the resulting record changes
nothing. -/
theorem claim_C2 (nextLegal now n2 t2 : String) (r : InvoiceRow) :
    ((r.legal_invoice_number = none →
        (set_invoice_number nextLegal now r).legal_invoice_number = some nextLegal) ∧
      (∀ v, r.legal_invoice_number = some v →
        (set_invoice_number nextLegal now r).legal_invoice_number = some v)) ∧
    ((r.invoice_number = none →
        (set_invoice_number nextLegal now r).invoice_number =
          (set_invoice_number nextLegal now r).legal_invoice_number) ∧
      (∀ v, r.invoice_number = some v →
        (set_invoice_number nextLegal now r).invoice_number = some v)) ∧
    ((r.issued_at = none → (set_invoice_number nextLegal now r).issued_at = some now) ∧
      (∀ v, r.issued_at = some v →
        (set_invoice_number nextLegal now r).issued_at = some v)) ∧
    ((r.tax_point = none → (set_invoice_number nextLegal now r).tax_point = some now) ∧
      (∀ v, r.tax_point = some v →
        (set_invoice_number nextLegal now r).tax_point = some v)) ∧
    set_invoice_number n2 t2 (set_invoice_number nextLegal now r) =
      set_invoice_number nextLegal now r := by
  obtain ⟨a, b, c, d⟩ := r
  cases a <;> cases b <;> cases c <;> cases d <;>
    simp [set_invoice_number]

/-- Witness for C2 at a fresh record: a second trigger run with a different
candidate number and clock changes nothing. -/
theorem claim_C2_witness :
    set_invoice_number "INV-2025-0002" "2025-10-12T00:00:00Z"
        (set_invoice_number "INV-2025-0001" "2025-10-11T00:00:00Z"
          ⟨none, none, none, none⟩) =
      set_invoice_number "INV-2025-0001" "2025-10-11T00:00:00Z"
        ⟨none, none, none, none⟩ :=
  (claim_C2 "INV-2025-0001" "2025-10-11T00:00:00Z" "INV-2025-0002"
    "2025-10-12T00:00:00Z" ⟨none, none, none, none⟩).2.2.2.2


/-- C1 as stated is false of the code: `processSignature` never compares the
provided name with the on-file business name.  Signing as vendor with the
name `Mallory Ltd` against the on-file business name `Acme Ltd` (no
case-insensitive match) nevertheless records the signature, mutates
`vendor_signed_at` away from null, and succeeds. -/
theorem claim_C1_counterexample :
    eqCaseInsensitive "Mallory Ltd" "Acme Ltd" = false ∧
    (processSignature .vendor true ⟨"draft", none, none, none, none, none, none⟩
        "Mallory Ltd" "2025-10-11T10:00:00Z" true (some "acct_1") ⟨true, true⟩ true
        "https://pay.example/s" "https://pdf.example/p" true).inv.vendor_signed_at =
      some "2025-10-11T10:00:00Z" ∧
    (processSignature .vendor true ⟨"draft", none, none, none, none, none, none⟩
        "Mallory Ltd" "2025-10-11T10:00:00Z" true (some "acct_1") ⟨true, true⟩ true
        "https://pay.example/s" "https://pdf.example/p" true).result =
      .success "Invoice signed and sent to client" := by
  refine ⟨by decide, by decide, by decide⟩

/-- C1 amended: the vendor sign operation validates only that the provided
signature name is non-blank — an empty or all-whitespace name fails with the
validation error and mutates nothing, while any non-blank name, whether or
not it case-insensitively matches the on-file business name (which the UI
merely pre-fills via `handleSignInvoice`), is recorded as the vendor
signature. -/
theorem claim_C1_amended (role : Role) (selectedSome : Bool) (inv : StoredInvoice)
    (signature now : String) (updateOk : Bool) (cid : Option String)
    (acct : PayoutAccount) (upstreamOk : Bool) (sUrl pUrl : String) (emailOk : Bool) :
    (isBlank signature = true →
      processSignature role selectedSome inv signature now updateOk cid acct
          upstreamOk sUrl pUrl emailOk =
        ⟨inv, 0, 0, .validationError "Please enter your signature"⟩) ∧
    (isBlank signature = false → selectedSome = true → updateOk = true →
      (processSignature .vendor selectedSome inv signature now updateOk cid acct
          upstreamOk sUrl pUrl emailOk).inv.vendor_signed_at = some now ∧
      (processSignature .vendor selectedSome inv signature now updateOk cid acct
          upstreamOk sUrl pUrl emailOk).inv.vendor_signature_url = some signature) := by
  constructor
  · intro h
    simp [processSignature, h]
  · intro h1 h2 h3
    subst h2
    subst h3
    obtain ⟨ce, pe⟩ := acct
    cases cid with
    | none => simp [processSignature, h1]
    | some c =>
      cases ce <;> cases pe <;> cases upstreamOk <;>
        cases hh : inv.stripe_hosted_invoice_url <;>
          simp [processSignature, createOrGetHostedSession, h1, hh]

/-- Witness for the amended C1: a concrete non-matching but non-blank name is
recorded. -/
theorem claim_C1_witness :
    isBlank "Mallory Ltd" = false ∧
    (processSignature .vendor true ⟨"draft", none, none, none, none, none, none⟩
        "Mallory Ltd" "2025-10-11T10:00:00Z" true (some "acct_1") ⟨true, true⟩ true
        "https://pay.example/s" "https://pdf.example/p" true).inv.vendor_signed_at =
      some "2025-10-11T10:00:00Z" :=
  ⟨by decide,
    ((claim_C1_amended .vendor true ⟨"draft", none, none, none, none, none, none⟩
      "Mallory Ltd" "2025-10-11T10:00:00Z" true (some "acct_1") ⟨true, true⟩ true
      "https://pay.example/s" "https://pdf.example/p" true).2 (by decide) rfl rfl).1⟩

/-- C3: when the payment-session creation step fails upstream after the
signature update has committed (vendor path, non-blank name, update ok,
connect id present, payout account fully enabled, no pre-existing hosted
URL), the recorded signature fields are preserved, the invoice status is left
exactly as it was (it does not advance to `sent`), the client notification is
never invoked, and the operation surfaces the payment error to the caller. -/
theorem claim_C3 (inv : StoredInvoice) (signature now cid sUrl pUrl : String)
    (emailOk : Bool) (hsig : isBlank signature = false)
    (hhost : inv.stripe_hosted_invoice_url = none) :
    (processSignature .vendor true inv signature now true (some cid) ⟨true, true⟩ false
        sUrl pUrl emailOk).inv.vendor_signed_at = some now ∧
    (processSignature .vendor true inv signature now true (some cid) ⟨true, true⟩ false
        sUrl pUrl emailOk).inv.vendor_signature_url = some signature ∧
    (processSignature .vendor true inv signature now true (some cid) ⟨true, true⟩ false
        sUrl pUrl emailOk).inv.status = inv.status ∧
    (processSignature .vendor true inv signature now true (some cid) ⟨true, true⟩ false
        sUrl pUrl emailOk).emailsInvoked = 0 ∧
    (processSignature .vendor true inv signature now true (some cid) ⟨true, true⟩ false
        sUrl pUrl emailOk).result = .paymentFailed := by
  simp [processSignature, createOrGetHostedSession, hsig, hhost]

/-- Witness for C3: a concrete draft invoice keeps its signature and `draft`
status when the payment step fails. -/
theorem claim_C3_witness :
    isBlank "Acme Ltd" = false ∧
    (processSignature .vendor true ⟨"draft", none, none, none, none, none, none⟩
        "Acme Ltd" "2025-10-11T10:00:00Z" true (some "acct_1") ⟨true, true⟩ false
        "https://pay.example/s" "https://pdf.example/p" true).inv.status = "draft" :=
  ⟨by decide,
    (claim_C3 ⟨"draft", none, none, none, none, none, none⟩ "Acme Ltd"
      "2025-10-11T10:00:00Z" "acct_1" "https://pay.example/s" "https://pdf.example/p"
      true (by decide) rfl).2.2.1⟩

/-- C4: `handlePayNow` opens the cached hosted URL with no store lookup when
it is present; otherwise it performs exactly one fresh lookup; if the URL is
still absent it reports the payment-URL-not-available error toast; every
thrown lookup error is caught (a toast is shown in every branch), and a
payment page is only ever opened at a URL obtained from the cache or the
lookup. -/
theorem claim_C4 (cached : Option String) (lookup : Except String (Option String)) :
    (∀ u, cached = some u → handlePayNow cached lookup = .opened u 0) ∧
    (cached = none → (handlePayNow cached lookup).lookups = 1) ∧
    (cached = none → lookup = .ok none →
      handlePayNow cached lookup =
        .errorToast "Payment URL not available. Please contact the vendor." 1) ∧
    (∀ u n, handlePayNow cached lookup = .opened u n →
      cached = some u ∨ lookup = .ok (some u)) := by
  cases cached with
  | none =>
    cases lookup with
    | error e => simp [handlePayNow, PayNowOutcome.lookups]
    | ok mu =>
      cases mu with
      | none => simp [handlePayNow, PayNowOutcome.lookups]
      | some u1 => simp [handlePayNow, PayNowOutcome.lookups]
  | some u0 => simp [handlePayNow, PayNowOutcome.lookups]

/-- Witness for C4: with no cached URL and a lookup that still finds none,
the handler reports the not-available error after one lookup. -/
theorem claim_C4_witness :
    handlePayNow none (.ok none) =
      .errorToast "Payment URL not available. Please contact the vendor." 1 :=
  (claim_C4 none (.ok none)).2.2.1 rfl rfl

/-- C5: for an invoice with no existing hosted payment URL, session creation
with a payout account missing either `chargesEnabled` or `payoutsEnabled`
fails with the distinct setup-required error — not the generic upstream
error — and no session is ever created. -/
theorem claim_C5 (acct : PayoutAccount) (upstreamOk : Bool) (sUrl pUrl : String)
    (inv : StoredInvoice) (hhost : inv.stripe_hosted_invoice_url = none)
    (hbad : acct.chargesEnabled = false ∨ acct.payoutsEnabled = false) :
    createOrGetHostedSession acct upstreamOk sUrl pUrl inv = .error .setupRequired ∧
    PBError.setupRequired ≠ PBError.upstream ∧
    ∀ inv2, createOrGetHostedSession acct upstreamOk sUrl pUrl inv ≠ .ok inv2 := by
  obtain ⟨ce, pe⟩ := acct
  rcases hbad with h | h <;> subst h <;>
    simp [createOrGetHostedSession, hhost]

/-- Witness for C5: a charges-disabled account fails session creation with
the setup-required error on a fresh draft invoice. -/
theorem claim_C5_witness :
    createOrGetHostedSession ⟨false, true⟩ true "https://pay.example/s"
        "https://pdf.example/p" ⟨"draft", none, none, none, none, none, none⟩ =
      .error .setupRequired :=
  (claim_C5 ⟨false, true⟩ true "https://pay.example/s" "https://pdf.example/p"
    ⟨"draft", none, none, none, none, none, none⟩ rfl (Or.inl rfl)).1

/-- C6 as stated is false of the code: when the `FRONTEND_URL` fallback base
is unconfigured (empty), `ensureHttps` passes a non-https URL through to the
processor unchanged instead of replacing it. -/
theorem claim_C6_counterexample :
    ensureHttps "" (some "http://evil.example")
        "/business-information?stripe_refresh=true" = "http://evil.example" ∧
    strStartsWith "http://evil.example" "https://" = false := by
  exact ⟨by decide, by decide⟩

/-- C6 amended: provided the configured fallback base `FRONTEND_URL` is
non-empty, any redirect URL that is missing, empty, or not starting with
`https://` is replaced by the fallback base concatenated with the fixed path
suffix; with an empty fallback base a non-secure URL is passed through
unchanged (see the counterexample). -/
theorem claim_C6_amended (frontendUrl fallbackPath : String) (url : Option String)
    (hcfg : frontendUrl ≠ "")
    (hbad : (strTruthy url && strStartsWith (url.getD "") "https://") = false) :
    ensureHttps frontendUrl url fallbackPath = frontendUrl ++ fallbackPath := by
  simp [ensureHttps, hbad, hcfg]

/-- Witness for the amended C6: a configured https base replaces an
`http://` redirect URL with the base plus the fixed suffix. -/
theorem claim_C6_witness :
    ("https://app.example" : String) ≠ "" ∧
    ensureHttps "https://app.example" (some "http://evil.example")
        "/business-information?stripe_refresh=true" =
      "https://app.example" ++ "/business-information?stripe_refresh=true" :=
  ⟨by decide,
    claim_C6_amended "https://app.example" "/business-information?stripe_refresh=true"
      (some "http://evil.example") (by decide) (by decide)⟩

/-- C7: every successful vendor sign operation (non-blank name, update ok,
connect id present, enabled payout account, fresh invoice, upstream ok)
transitions the invoice straight to `sent` — the immediate
payment-session-creation variant, regardless of whether the client has
already signed — and dispatches the client notification exactly once. -/
theorem claim_C7 (inv : StoredInvoice) (signature now cid sUrl pUrl : String)
    (emailOk : Bool) (hsig : isBlank signature = false)
    (hhost : inv.stripe_hosted_invoice_url = none) :
    (processSignature .vendor true inv signature now true (some cid) ⟨true, true⟩ true
        sUrl pUrl emailOk).result = .success "Invoice signed and sent to client" ∧
    (processSignature .vendor true inv signature now true (some cid) ⟨true, true⟩ true
        sUrl pUrl emailOk).inv.status = "sent" ∧
    (processSignature .vendor true inv signature now true (some cid) ⟨true, true⟩ true
        sUrl pUrl emailOk).emailsInvoked = 1 := by
  simp [processSignature, createOrGetHostedSession, hsig, hhost]

/-- Witness for C7: signing a draft invoice with the business name `Acme Ltd`
sends it and notifies the client once, whether or not the client had already
signed (here: client already signed). -/
theorem claim_C7_witness :
    isBlank "Acme Ltd" = false ∧
    (processSignature .vendor true
        ⟨"draft", none, none, some "2025-10-10T09:00:00Z", some "Jo Client", none, none⟩
        "Acme Ltd" "2025-10-11T10:00:00Z" true (some "acct_1") ⟨true, true⟩ true
        "https://pay.example/s" "https://pdf.example/p" true).inv.status = "sent" :=
  ⟨by decide,
    (claim_C7 ⟨"draft", none, none, some "2025-10-10T09:00:00Z", some "Jo Client", none, none⟩
      "Acme Ltd" "2025-10-11T10:00:00Z" "acct_1" "https://pay.example/s"
      "https://pdf.example/p" true (by decide) rfl).2.1⟩

/-- C8 as stated is false of the code in one detail: when the client contact
cannot be resolved, the handler aborts with the error message
`Client email not found` — not the claimed `client contact not found` — and
sends nothing. -/
theorem claim_C8_counterexample :
    sendInvoiceEmailHandler
        (.ok ⟨"INV-2025-0001", some "INV-2025-0001", 100000, 19000, 119000, none⟩)
        none (some "Acme Ltd") none =
      (.err "Client email not found", []) ∧
    ("Client email not found" : String) ≠ "client contact not found" := by
  exact ⟨by decide, by decide⟩

/-- C8 amended: if the client's contact address cannot be resolved the call
aborts with the error `Client email not found` and no email is handed to the
provider; otherwise exactly one email is sent, whose body embeds the
displayed invoice number and the three formatted monetary figures (subtotal,
VAT, total). -/
theorem claim_C8_amended (row : InvoiceEmailRow) (clientEmail businessName : Option String)
    (sendResult : Option String) :
    (strTruthy clientEmail = false →
      sendInvoiceEmailHandler (.ok row) clientEmail businessName sendResult =
        (.err "Client email not found", [])) ∧
    (strTruthy clientEmail = true → sendResult = none →
      ∃ m : EmailMsg,
        sendInvoiceEmailHandler (.ok row) clientEmail businessName sendResult =
          (.ok, [m]) ∧
        (∃ x y, m.html = x ++ displayInvoiceNumber row ++ y) ∧
        (∃ x y, m.html = x ++ formatEuroCents row.subtotal_cents ++ y) ∧
        (∃ x y, m.html = x ++ formatEuroCents row.vat_cents ++ y) ∧
        (∃ x y, m.html = x ++ formatEuroCents row.total_cents ++ y)) := by
  constructor
  · intro h
    simp [sendInvoiceEmailHandler, h]
  · intro h1 h2
    subst h2
    refine ⟨⟨clientEmail.getD "",
      "New Invoice " ++ displayInvoiceNumber row ++ " from " ++ vendorDisplayName businessName,
      renderInvoiceEmailHtml (vendorDisplayName businessName) (displayInvoiceNumber row)
        (formatEuroCents row.subtotal_cents) (formatEuroCents row.vat_cents)
        (formatEuroCents row.total_cents) row.stripe_pdf_url⟩, ?_, ?_, ?_, ?_, ?_⟩
    · simp [sendInvoiceEmailHandler, h1]
    · exact ⟨emailHtmlP1 ++ vendorDisplayName businessName ++ emailHtmlP2,
        emailHtmlP3 ++ formatEuroCents row.subtotal_cents ++ emailHtmlP4 ++
          formatEuroCents row.vat_cents ++ emailHtmlP5 ++ formatEuroCents row.total_cents ++
          emailHtmlP6 ++
          (if strTruthy row.stripe_pdf_url then
            emailHtmlPdfA ++ row.stripe_pdf_url.getD "" ++ emailHtmlPdfB else "") ++
          emailHtmlP7 ++ vendorDisplayName businessName ++ emailHtmlP8,
        by simp [renderInvoiceEmailHtml, strAppendAssoc]⟩
    · exact ⟨emailHtmlP1 ++ vendorDisplayName businessName ++ emailHtmlP2 ++
          displayInvoiceNumber row ++ emailHtmlP3,
        emailHtmlP4 ++ formatEuroCents row.vat_cents ++ emailHtmlP5 ++
          formatEuroCents row.total_cents ++ emailHtmlP6 ++
          (if strTruthy row.stripe_pdf_url then
            emailHtmlPdfA ++ row.stripe_pdf_url.getD "" ++ emailHtmlPdfB else "") ++
          emailHtmlP7 ++ vendorDisplayName businessName ++ emailHtmlP8,
        by simp [renderInvoiceEmailHtml, strAppendAssoc]⟩
    · exact ⟨emailHtmlP1 ++ vendorDisplayName businessName ++ emailHtmlP2 ++
          displayInvoiceNumber row ++ emailHtmlP3 ++ formatEuroCents row.subtotal_cents ++
          emailHtmlP4,
        emailHtmlP5 ++ formatEuroCents row.total_cents ++ emailHtmlP6 ++
          (if strTruthy row.stripe_pdf_url then
            emailHtmlPdfA ++ row.stripe_pdf_url.getD "" ++ emailHtmlPdfB else "") ++
          emailHtmlP7 ++ vendorDisplayName businessName ++ emailHtmlP8,
        by simp [renderInvoiceEmailHtml, strAppendAssoc]⟩
    · exact ⟨emailHtmlP1 ++ vendorDisplayName businessName ++ emailHtmlP2 ++
          displayInvoiceNumber row ++ emailHtmlP3 ++ formatEuroCents row.subtotal_cents ++
          emailHtmlP4 ++ formatEuroCents row.vat_cents ++ emailHtmlP5,
        emailHtmlP6 ++
          (if strTruthy row.stripe_pdf_url then
            emailHtmlPdfA ++ row.stripe_pdf_url.getD "" ++ emailHtmlPdfB else "") ++
          emailHtmlP7 ++ vendorDisplayName businessName ++ emailHtmlP8,
        by simp [renderInvoiceEmailHtml, strAppendAssoc]⟩

/-- Witness for the amended C8: a resolvable client address yields exactly
one email embedding the invoice number and the three monetary figures. -/
theorem claim_C8_witness :
    strTruthy (some "client@example.com") = true ∧
    (∃ m : EmailMsg,
      sendInvoiceEmailHandler
          (.ok ⟨"INV-2025-0001", some "INV-2025-0001", 100000, 19000, 119000, none⟩)
          (some "client@example.com") (some "Acme Ltd") none =
        (.ok, [m]) ∧
      (∃ x y, m.html = x ++
        displayInvoiceNumber
          ⟨"INV-2025-0001", some "INV-2025-0001", 100000, 19000, 119000, none⟩ ++ y) ∧
      (∃ x y, m.html = x ++ formatEuroCents 100000 ++ y) ∧
      (∃ x y, m.html = x ++ formatEuroCents 19000 ++ y) ∧
      (∃ x y, m.html = x ++ formatEuroCents 119000 ++ y)) :=
  ⟨by decide,
    (claim_C8_amended ⟨"INV-2025-0001", some "INV-2025-0001", 100000, 19000, 119000, none⟩
      (some "client@example.com") (some "Acme Ltd") none).2 (by decide) rfl⟩

/-- C9 as stated is false of the code: when the underlying email send fails
(zero emails delivered), the vendor-facing sign-and-send operation still
reports the plain success toast — `processSignature` discards the result of
the `send-invoice-email` invocation, so its caller cannot observe the
notification failure. -/
theorem claim_C9_counterexample :
    (processSignature .vendor true ⟨"draft", none, none, none, none, none, none⟩
        "Acme Ltd" "2025-10-11T10:00:00Z" true (some "acct_1") ⟨true, true⟩ true
        "https://pay.example/s" "https://pdf.example/p" false).emailsDelivered = 0 ∧
    (processSignature .vendor true ⟨"draft", none, none, none, none, none, none⟩
        "Acme Ltd" "2025-10-11T10:00:00Z" true (some "acct_1") ⟨true, true⟩ true
        "https://pay.example/s" "https://pdf.example/p" false).result =
      .success "Invoice signed and sent to client" := by
  exact ⟨by decide, by decide⟩

/-- C9 amended: a failure of the underlying send is surfaced as an error
response at the `send-invoice-email` function boundary, and the
already-committed signature and status change are not rolled back; the
sign-and-send UI handler, however, discards the notification result and
reports success regardless, so the vendor-facing operation does not surface
the failure. -/
theorem claim_C9_amended (row : InvoiceEmailRow) (clientEmail businessName : Option String)
    (errMsg : String) (inv : StoredInvoice) (signature now cid sUrl pUrl : String)
    (hmail : strTruthy clientEmail = true)
    (hsig : isBlank signature = false)
    (hhost : inv.stripe_hosted_invoice_url = none) :
    (sendInvoiceEmailHandler (.ok row) clientEmail businessName (some errMsg)).1 =
      .err errMsg ∧
    (processSignature .vendor true inv signature now true (some cid) ⟨true, true⟩ true
        sUrl pUrl false).inv.vendor_signed_at = some now ∧
    (processSignature .vendor true inv signature now true (some cid) ⟨true, true⟩ true
        sUrl pUrl false).inv.status = "sent" ∧
    (processSignature .vendor true inv signature now true (some cid) ⟨true, true⟩ true
        sUrl pUrl false).emailsDelivered = 0 ∧
    (processSignature .vendor true inv signature now true (some cid) ⟨true, true⟩ true
        sUrl pUrl false).result = .success "Invoice signed and sent to client" := by
  refine ⟨?_, ?_⟩
  · simp [sendInvoiceEmailHandler, hmail]
  · simp [processSignature, createOrGetHostedSession, hsig, hhost]

/-- Witness for the amended C9: a failed provider send yields a 500 error at
the function boundary while a concrete signed invoice stays signed and
sent. -/
theorem claim_C9_witness :
    strTruthy (some "client@example.com") = true ∧
    (sendInvoiceEmailHandler
        (.ok ⟨"INV-2025-0001", some "INV-2025-0001", 100000, 19000, 119000, none⟩)
        (some "client@example.com") (some "Acme Ltd") (some "provider unavailable")).1 =
      .err "provider unavailable" :=
  ⟨by decide,
    (claim_C9_amended ⟨"INV-2025-0001", some "INV-2025-0001", 100000, 19000, 119000, none⟩
      (some "client@example.com") (some "Acme Ltd") "provider unavailable"
      ⟨"draft", none, none, none, none, none, none⟩ "Acme Ltd" "2025-10-11T10:00:00Z"
      "acct_1" "https://pay.example/s" "https://pdf.example/p" (by decide) (by decide)
      rfl).1⟩

/-- C10: for every allowed-types list and every per-role rpc oracle, an
authenticated user whose admin `has_role` rpc answers true is granted the
protected content, and the computed user type is `admin` irrespective of the
per-role checks — the admin check runs first and takes precedence. -/
theorem claim_C10 (roleCheck : String → RpcResult) (allowed : List String) :
    roleGuard true (.ok true) roleCheck allowed = .grant ∧
    checkUserRole (.ok true) roleCheck allowed = some "admin" := by
  constructor
  · simp [roleGuard, checkUserRole]
  · rfl
